import Mathlib

set_option maxRecDepth 8000
set_option maxHeartbeats 2000000

/-!
Shallow embedding of the nRFCalc expression evaluator
(`src/math/expression_evaluator.c` and `expression_evaluator.h`).

Conventions of the embedding:
* C `double` is idealized as `ℝ`; a non-finite double (NaN or an infinity)
  produced by a math routine is represented as `none : Option ℝ`, so the C
  pattern `if (!isfinite(x))` corresponds to matching the option against
  `none`.  Finite-precision rounding is idealized away; every claim checked
  here is about values that are exact in binary64 as well.
* Numeric literals scanned by `strtod` are represented exactly as rationals
  (`ℚ`) inside tokens and cast to `ℝ` when pushed on the value stack.  The
  decimal and exponent forms of `strtod` are modelled; the hexadecimal and
  inf/nan forms, which the calculator keypad can never produce, are not.
* The C output parameter `double *result` is modelled by threading the
  cell's previous contents through the function and returning the pair
  (return code, new cell contents).  The `const eval_context_t *context`
  argument is likewise threaded explicitly in
  `evaluate_expression_frame` so that non-mutation is a statement, not a
  typing convention.
* Fixed-capacity arrays (`token_t tokens[MAX_TOKENS]`, the operator stack,
  the value stack, the RPN queue) are modelled as lists together with the
  verbatim capacity checks of the source.
-/

-- Error codes, expression_evaluator.c lines 25-31.
def ERR_SYNTAX_ERROR : Int := -1
def ERR_DIVISION_BY_ZERO : Int := -2
def ERR_DOMAIN_ERROR : Int := -3
def ERR_OVERFLOW : Int := -4
def ERR_STACK_OVERFLOW : Int := -5
def ERR_UNKNOWN_FUNCTION : Int := -6
def ERR_MISMATCHED_PARENS : Int := -7

-- expression_evaluator.h line 22.
def MAX_TOKENS : ℕ := 64

/-- C enum `function_type_t` (expression_evaluator.h lines 43-51). -/
inductive function_type_t
  | sin | cos | tan
  | asin | acos | atan
  | log | ln | log10
  | sqrt | abs | exp
  | sinh | cosh | tanh
  | factorial
deriving DecidableEq, Repr

/-- C enum `constant_type_t` (expression_evaluator.h lines 56-60). -/
inductive constant_type_t
  | pi | e
deriving DecidableEq, Repr

/-- C enum `variable_type_t` (expression_evaluator.h lines 65-71). -/
inductive variable_type_t
  | ans | x | y | a | b | c | d | m
deriving DecidableEq, Repr

/-- C struct `token_t` (expression_evaluator.h lines 76-85): the token kind
together with its union payload. -/
inductive token_t
  | number (v : ℚ)
  | operator (op : Char)
  | function (f : function_type_t)
  | constant (c : constant_type_t)
  | var (v : variable_type_t)
  | left_paren
  | right_paren
  | unary_minus
  | token_end
deriving DecidableEq, Repr

/-- C struct `variable_storage_t` (expression_evaluator.h lines 98-103). -/
structure variable_storage_t where
  ans : ℝ
  x : ℝ
  y : ℝ
  a : ℝ
  b : ℝ
  c : ℝ
  d : ℝ
  m : ℝ

/-- C struct `eval_context_t` (expression_evaluator.h lines 108-111).  The
first field is named `variables` in the C source; `variables` is a reserved
word in Lean, so it is called `vars` here. -/
structure eval_context_t where
  vars : variable_storage_t
  deg_mode : Bool

deriving instance DecidableEq for Except

/-- `function_patterns` table (expression_evaluator.c lines 44-53), in
source order: the scan is first-match, so an earlier pattern shadows any
later pattern it is a prefix of. -/
def function_patterns : List (String × function_type_t) :=
  [("sin⁻¹", .asin), ("cos⁻¹", .acos), ("tan⁻¹", .atan),
   ("sin", .sin), ("cos", .cos), ("tan", .tan),
   ("sinh", .sinh), ("cosh", .cosh), ("tanh", .tanh),
   ("log", .log), ("ln", .ln), ("log10", .log10),
   ("sqrt", .sqrt), ("abs", .abs), ("exp", .exp)]

/-- `constant_patterns` table (expression_evaluator.c lines 56-64). -/
def constant_patterns : List (String × constant_type_t) :=
  [("π", .pi), ("pi", .pi), ("e", .e)]

/-- `variable_patterns` table (expression_evaluator.c lines 67-75). -/
def variable_patterns : List (String × variable_type_t) :=
  [("Ans", .ans), ("X", .x), ("Y", .y),
   ("A", .a), ("B", .b), ("C", .c), ("D", .d), ("M", .m)]

/-- `get_operator_precedence` (expression_evaluator.c lines 77-91). -/
def get_operator_precedence (op : Char) : Int :=
  if op = '+' then 1
  else if op = '-' then 1
  else if op = '*' then 2
  else if op = '/' then 2
  else if op = '^' then 3
  else 0

/-- `is_right_associative` (expression_evaluator.c lines 93-96). -/
def is_right_associative (op : Char) : Bool :=
  op = '^'

/-- `get_variable_value` (expression_evaluator.c lines 119-132). -/
def get_variable_value (v : variable_type_t) (storage : variable_storage_t) : ℝ :=
  match v with
  | .ans => storage.ans
  | .x => storage.x
  | .y => storage.y
  | .a => storage.a
  | .b => storage.b
  | .c => storage.c
  | .d => storage.d
  | .m => storage.m

/-- `isspace` of ctype.h restricted to ASCII, as used by `skip_whitespace`. -/
def is_space_char (c : Char) : Bool :=
  c = ' ' || c = '\t' || c = '\n' || c = '\u000B' || c = '\u000C' || c = '\r'

/-- Numeric value of a digit string, most significant digit first. -/
def digits_value (ds : List Char) : ℕ :=
  ds.foldl (fun acc c => 10 * acc + (c.toNat - 48)) 0

/-- `parse_number` (expression_evaluator.c lines 199-204): the decimal and
exponent forms accepted by `strtod` at a position whose first character is a
digit or a dot.  Returns the exact value and the remaining characters, or
`none` when `strtod` consumes nothing (the `new_pos > pos` check fails). -/
def parse_number (cs : List Char) : Option (ℚ × List Char) :=
  let intSpan := cs.span Char.isDigit
  let fracSpan : Option (List Char) × List Char :=
    match intSpan.2 with
    | '.' :: rest =>
      let s := rest.span Char.isDigit
      (some s.1, s.2)
    | _ => (none, intSpan.2)
  if intSpan.1.isEmpty ∧ (fracSpan.1.getD []).isEmpty then
    none
  else
    let mantissa : ℚ :=
      match fracSpan.1 with
      | some ds => (digits_value intSpan.1 : ℚ) + (digits_value ds : ℚ) / 10 ^ ds.length
      | none => (digits_value intSpan.1 : ℚ)
    match fracSpan.2 with
    | c :: rest =>
      if c = 'e' ∨ c = 'E' then
        let signSplit : Bool × List Char :=
          match rest with
          | '+' :: r => (false, r)
          | '-' :: r => (true, r)
          | _ => (false, rest)
        let expSpan := signSplit.2.span Char.isDigit
        if expSpan.1.isEmpty then
          some (mantissa, fracSpan.2)
        else if signSplit.1 then
          some (mantissa / 10 ^ digits_value expSpan.1, expSpan.2)
        else
          some (mantissa * 10 ^ digits_value expSpan.1, expSpan.2)
      else
        some (mantissa, fracSpan.2)
    | [] => some (mantissa, fracSpan.2)

/-- Linear first-match scan shared by `parse_function`, `parse_constant`
and `parse_variable` (expression_evaluator.c lines 206-240): the first
pattern of the table that is a prefix of the input wins. -/
def match_table {α : Type} (table : List (String × α)) (cs : List Char) :
    Option (α × List Char) :=
  match table with
  | [] => none
  | (pat, v) :: rest =>
    if pat.toList.isPrefixOf cs then some (v, cs.drop pat.toList.length)
    else match_table rest cs

/-- One iteration of the `tokenize_expression` loop body after whitespace
has been skipped (expression_evaluator.c lines 254-369): number, then
function table, then constant table, then variable table, then the
single-character switch.  Returns the token, the remaining characters and
the new `expect_number` flag. -/
def scan_token (cs : List Char) (expect_number : Bool) :
    Except Int (token_t × List Char × Bool) :=
  match cs with
  | [] => .error ERR_SYNTAX_ERROR
  | ch :: rest =>
    match (if ch.isDigit || ch = '.' then parse_number (ch :: rest) else none) with
    | some (v, rem) => .ok (.number v, rem, false)
    | none =>
      match match_table function_patterns (ch :: rest) with
      | some (f, rem) => .ok (.function f, rem, true)
      | none =>
        match match_table constant_patterns (ch :: rest) with
        | some (c, rem) => .ok (.constant c, rem, false)
        | none =>
          match match_table variable_patterns (ch :: rest) with
          | some (v, rem) => .ok (.var v, rem, false)
          | none =>
            if ch = '+' ∨ ch = '*' ∨ ch = '/' ∨ ch = '^' then
              if expect_number then .error ERR_SYNTAX_ERROR
              else .ok (.operator ch, rest, true)
            else if ch = '-' then
              if expect_number then .ok (.unary_minus, rest, true)
              else .ok (.operator '-', rest, true)
            else if ch = '(' then
              .ok (.left_paren, rest, true)
            else if ch = ')' then
              if expect_number then .error ERR_SYNTAX_ERROR
              else .ok (.right_paren, rest, false)
            else if ch = '!' then
              if expect_number then .error ERR_SYNTAX_ERROR
              else .ok (.function .factorial, rest, false)
            else
              .error ERR_SYNTAX_ERROR

/-- The `tokenize_expression` loop (expression_evaluator.c lines 250-370):
`while (pos < len && token_count < max_tokens - 1)`.  The fuel argument is
an upper bound on the number of iterations; every iteration consumes at
least one character, so `length + 1` fuel is always enough.  Note that when
the token count reaches `MAX_TOKENS - 1 = 63` the loop simply stops: the
remaining input is silently discarded, no error is reported. -/
def tokenize_aux : ℕ → List Char → Bool → ℕ → Except Int (List token_t)
  | 0, _, _, _ => .ok []
  | fuel + 1, cs, expect_number, count =>
    if count < MAX_TOKENS - 1 then
      match cs.dropWhile is_space_char with
      | [] => .ok []
      | ch :: rest =>
        match scan_token (ch :: rest) expect_number with
        | .error e => .error e
        | .ok (tok, rem, expect') =>
          match tokenize_aux fuel rem expect' (count + 1) with
          | .error e => .error e
          | .ok toks => .ok (tok :: toks)
    else .ok []

/-- `tokenize_expression` (expression_evaluator.c lines 243-375).  The C
function stores a `TOKEN_END` marker after the scanned tokens and returns
their count; since the converter iterates only over the first `count`
entries, the returned list holds exactly those scanned tokens. -/
def tokenize_expression (expression : String) : Except Int (List token_t) :=
  tokenize_aux (expression.toList.length + 1) expression.toList true 0

/-- Pop condition of the operator/unary-minus case of the shunting-yard
loop (expression_evaluator.c lines 421-429): top is not a left parenthesis
and (top is an operator of strictly greater precedence, or an operator of
equal precedence while the incoming operator is left-associative, or a
function, or a unary minus). -/
def op_qualifies (top : token_t) (precedence : Int) (right_assoc : Bool) : Bool :=
  match top with
  | .left_paren => false
  | .operator c =>
    get_operator_precedence c > precedence ||
      (get_operator_precedence c = precedence && !right_assoc)
  | .function _ => true
  | .unary_minus => true
  | _ => false

/-- The pop-loop run before pushing a binary operator or unary minus
(expression_evaluator.c lines 421-435), with the capacity check on the RPN
queue.  Returns the remaining operator stack and the extended output. -/
def pop_operators (precedence : Int) (right_assoc : Bool) :
    List token_t → List token_t → Except Int (List token_t × List token_t)
  | [], out => .ok ([], out)
  | top :: rest, out =>
    if op_qualifies top precedence right_assoc then
      if out.length ≥ MAX_TOKENS then .error ERR_STACK_OVERFLOW
      else pop_operators precedence right_assoc rest (out ++ [top])
    else .ok (top :: rest, out)

/-- The right-parenthesis case of the shunting-yard loop
(expression_evaluator.c lines 453-476): pop into the output until a left
parenthesis is found (error `ERR_MISMATCHED_PARENS` if the stack empties),
discard the left parenthesis, and pop one function if it is now on top. -/
def pop_until_left_paren :
    List token_t → List token_t → Except Int (List token_t × List token_t)
  | [], _ => .error ERR_MISMATCHED_PARENS
  | top :: rest, out =>
    match top with
    | .left_paren =>
      match rest with
      | .function f :: rest2 =>
        if out.length ≥ MAX_TOKENS then .error ERR_STACK_OVERFLOW
        else .ok (rest2, out ++ [.function f])
      | _ => .ok (rest, out)
    | _ =>
      if out.length ≥ MAX_TOKENS then .error ERR_STACK_OVERFLOW
      else pop_until_left_paren rest (out ++ [top])

/-- Final drain of the operator stack (expression_evaluator.c lines
485-493): a left parenthesis still on the stack is a mismatched-parentheses
error. -/
def drain_stack : List token_t → List token_t → Except Int (List token_t)
  | [], out => .ok out
  | top :: rest, out =>
    match top with
    | .left_paren => .error ERR_MISMATCHED_PARENS
    | _ =>
      if out.length ≥ MAX_TOKENS then .error ERR_STACK_OVERFLOW
      else drain_stack rest (out ++ [top])

/-- The shunting-yard loop of `parse_expression_to_rpn`
(expression_evaluator.c lines 392-493).  The operator stack is a list with
its head as top of stack; the capacity check `stack_top >= MAX_TOKENS - 1`
before a push is `length ≥ MAX_TOKENS`.  The output queue is a list in
emission order with its own capacity checks. -/
def shunting_yard : List token_t → List token_t → List token_t → Except Int (List token_t)
  | [], op_stack, out => drain_stack op_stack out
  | t :: ts, op_stack, out =>
    match t with
    | .number _ =>
      if out.length ≥ MAX_TOKENS then .error ERR_STACK_OVERFLOW
      else shunting_yard ts op_stack (out ++ [t])
    | .constant _ =>
      if out.length ≥ MAX_TOKENS then .error ERR_STACK_OVERFLOW
      else shunting_yard ts op_stack (out ++ [t])
    | .var _ =>
      if out.length ≥ MAX_TOKENS then .error ERR_STACK_OVERFLOW
      else shunting_yard ts op_stack (out ++ [t])
    | .function _ =>
      if op_stack.length ≥ MAX_TOKENS then .error ERR_STACK_OVERFLOW
      else shunting_yard ts (t :: op_stack) out
    | .operator c =>
      match pop_operators (get_operator_precedence c) (is_right_associative c) op_stack out with
      | .error e => .error e
      | .ok (op_stack', out') =>
        if op_stack'.length ≥ MAX_TOKENS then .error ERR_STACK_OVERFLOW
        else shunting_yard ts (t :: op_stack') out'
    | .unary_minus =>
      match pop_operators (get_operator_precedence '-') (is_right_associative '-') op_stack out with
      | .error e => .error e
      | .ok (op_stack', out') =>
        if op_stack'.length ≥ MAX_TOKENS then .error ERR_STACK_OVERFLOW
        else shunting_yard ts (t :: op_stack') out'
    | .left_paren =>
      if op_stack.length ≥ MAX_TOKENS then .error ERR_STACK_OVERFLOW
      else shunting_yard ts (t :: op_stack) out
    | .right_paren =>
      match pop_until_left_paren op_stack out with
      | .error e => .error e
      | .ok (op_stack', out') => shunting_yard ts op_stack' out'
    | .token_end => shunting_yard ts op_stack out

/-- `parse_expression_to_rpn` (expression_evaluator.c lines 377-496). -/
def parse_expression_to_rpn (expression : String) : Except Int (List token_t) :=
  match tokenize_expression expression with
  | .error e => .error e
  | .ok tokens => shunting_yard tokens [] []

example : tokenize_expression "3*-2" =
    .ok [.number 3, .operator '*', .unary_minus, .number 2] := by decide

example : parse_expression_to_rpn "2^3^2" =
    .ok [.number 2, .number 3, .number 2, .operator '^', .operator '^'] := by decide

/-- `get_constant_value` (expression_evaluator.c lines 106-116).  The C
source returns the double constants `M_PI` and `M_E`, idealized here as the
exact real values. -/
noncomputable def get_constant_value (c : constant_type_t) : ℝ :=
  match c with
  | .pi => Real.pi
  | .e => Real.exp 1

/-- C library `pow` on idealized reals, as an option whose `none` stands
for a non-finite double: `pow(0, b)` for `b < 0` is an infinity, and
`pow(a, b)` for `a < 0` with non-integer `b` is NaN; a negative base with
an integer exponent is exact integer exponentiation. -/
noncomputable def c_pow (a b : ℝ) : Option ℝ :=
  if 0 < a then some (Real.rpow a b)
  else if a = 0 then
    (if 0 < b then some 0 else if b = 0 then some 1 else none)
  else if (⌊b⌋ : ℝ) = b then some (a ^ ⌊b⌋) else none

/-- `factorial` (expression_evaluator.c lines 134-146): NaN (`none`) for a
negative, non-integer, or greater-than-170 argument; otherwise the loop
`for (i = 2; i <= (int)n; i++) result *= i;`, whose result is the
factorial of the integer `⌊n⌋`. -/
noncomputable def factorial (n : ℝ) : Option ℝ :=
  if n < 0 ∨ (⌊n⌋ : ℝ) ≠ n ∨ n > 170 then none
  else some ((Int.toNat ⌊n⌋).factorial : ℝ)

/-- `apply_function` (expression_evaluator.c lines 149-188), composed with
the caller's `isfinite` test: `none` is the non-finite double the C caller
turns into `ERR_DOMAIN_ERROR`.  When `deg_mode` holds, sin/cos/tan convert
the argument from degrees to radians first, and asin/acos/atan convert the
radian result to degrees; all other functions ignore the angle mode. -/
noncomputable def apply_function (func : function_type_t) (arg : ℝ) (deg_mode : Bool) :
    Option ℝ :=
  let angle_arg :=
    if deg_mode ∧ (func = .sin ∨ func = .cos ∨ func = .tan) then
      arg * Real.pi / 180
    else arg
  match func with
  | .sin => some (Real.sin angle_arg)
  | .cos => some (Real.cos angle_arg)
  | .tan => some (Real.tan angle_arg)
  | .asin =>
    if arg < -1 ∨ 1 < arg then none
    else some (if deg_mode then Real.arcsin arg * 180 / Real.pi else Real.arcsin arg)
  | .acos =>
    if arg < -1 ∨ 1 < arg then none
    else some (if deg_mode then Real.arccos arg * 180 / Real.pi else Real.arccos arg)
  | .atan =>
    some (if deg_mode then Real.arctan arg * 180 / Real.pi else Real.arctan arg)
  | .log => if 0 < arg then some (Real.logb 10 arg) else none
  | .ln => if 0 < arg then some (Real.log arg) else none
  | .log10 => if 0 < arg then some (Real.logb 10 arg) else none
  | .sqrt => if arg < 0 then none else some (Real.sqrt arg)
  | .abs => some |arg|
  | .exp => some (Real.exp arg)
  | .sinh => some (Real.sinh arg)
  | .cosh => some (Real.cosh arg)
  | .tanh => some (Real.tanh arg)
  | .factorial => factorial arg

/-- The binary-operator switch of `evaluate_rpn` (expression_evaluator.c
lines 541-557) together with the `isfinite` check of lines 555-557: in the
idealized real semantics the sum, difference, product, and guarded quotient
of finite reals are finite, so only `pow`'s non-finite outcomes (the `none`
results of `c_pow`) reach the `ERR_OVERFLOW` branch.  `a` is the left
operand (beneath the top of the stack), `b` the right operand (the top). -/
noncomputable def apply_operator (op : Char) (a b : ℝ) : Except Int ℝ :=
  if op = '+' then .ok (a + b)
  else if op = '-' then .ok (a - b)
  else if op = '*' then .ok (a * b)
  else if op = '/' then
    if |b| < 1e-15 then .error ERR_DIVISION_BY_ZERO
    else .ok (a / b)
  else if op = '^' then
    match c_pow a b with
    | some r => .ok r
    | none => .error ERR_OVERFLOW
  else .error ERR_SYNTAX_ERROR

/-- One iteration of the `evaluate_rpn` loop (expression_evaluator.c lines
503-590) on the working stack of doubles (head = top of stack).  The
capacity check `stack_top >= MAX_TOKENS - 1` before a push is
`length ≥ MAX_TOKENS`; an operator with fewer than two stacked operands, or
a function or unary minus with an empty stack, is `ERR_SYNTAX_ERROR`; a
non-finite function result is `ERR_DOMAIN_ERROR`. -/
noncomputable def eval_step (context : eval_context_t) (stack : List ℝ) (t : token_t) :
    Except Int (List ℝ) :=
  match t with
  | .number v =>
    if stack.length ≥ MAX_TOKENS then .error ERR_STACK_OVERFLOW
    else .ok ((v : ℝ) :: stack)
  | .constant c =>
    if stack.length ≥ MAX_TOKENS then .error ERR_STACK_OVERFLOW
    else .ok (get_constant_value c :: stack)
  | .var v =>
    if stack.length ≥ MAX_TOKENS then .error ERR_STACK_OVERFLOW
    else .ok (get_variable_value v context.vars :: stack)
  | .operator op =>
    match stack with
    | b :: a :: rest =>
      match apply_operator op a b with
      | .error e => .error e
      | .ok r => .ok (r :: rest)
    | _ => .error ERR_SYNTAX_ERROR
  | .unary_minus =>
    match stack with
    | x :: rest => .ok (-x :: rest)
    | [] => .error ERR_SYNTAX_ERROR
  | .function f =>
    match stack with
    | arg :: rest =>
      match apply_function f arg context.deg_mode with
      | some r => .ok (r :: rest)
      | none => .error ERR_DOMAIN_ERROR
    | [] => .error ERR_SYNTAX_ERROR
  | _ => .error ERR_SYNTAX_ERROR

/-- The `for` loop of `evaluate_rpn` (expression_evaluator.c lines
503-590), iterating `eval_step` over the RPN queue. -/
noncomputable def eval_rpn_loop (context : eval_context_t) :
    List token_t → List ℝ → Except Int (List ℝ)
  | [], stack => .ok stack
  | t :: ts, stack =>
    match eval_step context stack t with
    | .error e => .error e
    | .ok stack' => eval_rpn_loop context ts stack'

/-- `evaluate_rpn` (expression_evaluator.c lines 498-599).  The `result`
argument is the previous contents of the C output cell `*result`; the
returned pair is (return code, new contents).  Lines 592-598: the cell is
written only when exactly one value remains on the stack. -/
noncomputable def evaluate_rpn (rpn : List token_t) (context : eval_context_t)
    (result : ℝ) : Int × ℝ :=
  match eval_rpn_loop context rpn [] with
  | .error e => (e, result)
  | .ok stack =>
    match stack with
    | [v] => (0, v)
    | _ => (ERR_SYNTAX_ERROR, result)

/-- `evaluate_expression` (expression_evaluator.c lines 601-621): parse to
RPN, then evaluate; the first error short-circuits and leaves the result
cell untouched. -/
noncomputable def evaluate_expression (expression : String) (context : eval_context_t)
    (result : ℝ) : Int × ℝ :=
  match parse_expression_to_rpn expression with
  | .error e => (e, result)
  | .ok rpn => evaluate_rpn rpn context result

/-- `evaluate_expression` with the whole caller-visible memory threaded
explicitly: the state is the pair (contents of the `eval_context_t` the
caller passed by pointer, contents of the `double` result cell).  Each
branch of the translation returns the state it leaves in memory; only the
success branch of the terminal stack check writes the result component, and
no branch writes the context component, mirroring the `const` context
pointer of the C signature. -/
noncomputable def evaluate_expression_frame (expression : String)
    (st : eval_context_t × ℝ) : Int × (eval_context_t × ℝ) :=
  match parse_expression_to_rpn expression with
  | .error e => (e, st)
  | .ok rpn =>
    match eval_rpn_loop st.1 rpn [] with
    | .error e => (e, st)
    | .ok stack =>
      match stack with
      | [v] => (0, (st.1, v))
      | _ => (ERR_SYNTAX_ERROR, st)

/-- An all-zero variable store, used for concrete witnesses. -/
noncomputable def vars_zero : variable_storage_t :=
  ⟨0, 0, 0, 0, 0, 0, 0, 0⟩

/-- A concrete context in radian mode, used for concrete witnesses. -/
noncomputable def ctx_rad : eval_context_t :=
  ⟨vars_zero, false⟩

/-- A concrete context in degree mode, used for concrete witnesses. -/
noncomputable def ctx_deg : eval_context_t :=
  ⟨vars_zero, true⟩

/-! Helper lemmas shared by the claim theorems. -/

/-- Splitting an RPN run at an append point. -/
theorem eval_rpn_loop_append (ctx : eval_context_t) (xs ys : List token_t) (st : List ℝ) :
    eval_rpn_loop ctx (xs ++ ys) st =
      match eval_rpn_loop ctx xs st with
      | .error e => .error e
      | .ok st' => eval_rpn_loop ctx ys st' := by
  induction xs generalizing st with
  | nil => simp [eval_rpn_loop]
  | cons t ts ih =>
    simp only [List.cons_append, eval_rpn_loop]
    cases h : eval_step ctx st t <;> simp [ih]

/-- The 65-character expression of 33 ones joined by plus signs: 65 tokens,
which exceeds the 63-token tokenizer budget. -/
def long_expr : String :=
  "1+1+1+1+1+1+1+1+1+1+1+1+1+1+1+1+1+1+1+1+1+1+1+1+1+1+1+1+1+1+1+1+1"

/-- The RPN form of a sum of `n + 1` ones. -/
def ones_rpn : ℕ → List token_t
  | 0 => [.number 1]
  | n + 1 => ones_rpn n ++ [.number 1, .operator '+']

/-- Evaluating the RPN form of a sum of `n + 1` ones yields `n + 1`. -/
theorem eval_ones (n : ℕ) (ctx : eval_context_t) :
    eval_rpn_loop ctx (ones_rpn n) [] = .ok [(n : ℝ) + 1] := by
  induction n with
  | zero => norm_num [ones_rpn, eval_rpn_loop, eval_step, MAX_TOKENS]
  | succ n ih =>
    rw [ones_rpn, eval_rpn_loop_append, ih]
    simp [eval_rpn_loop, eval_step, apply_operator, MAX_TOKENS]

/-- The tokenizer loop started at token count `count` emits at most
`MAX_TOKENS - 1 - count` further tokens: the loop guard
`token_count < max_tokens - 1` stops it, without error, once the budget is
used up. -/
theorem tokenize_aux_length_le (fuel : ℕ) :
    ∀ (cs : List Char) (exp : Bool) (count : ℕ) (ts : List token_t),
      tokenize_aux fuel cs exp count = .ok ts → ts.length ≤ MAX_TOKENS - 1 - count := by
  induction fuel with
  | zero =>
    intro cs exp count ts h
    simp only [tokenize_aux, Except.ok.injEq] at h
    subst h
    simp
  | succ n ih =>
    intro cs exp count ts h
    simp only [tokenize_aux] at h
    split at h
    · rename_i hc
      split at h
      · simp only [Except.ok.injEq] at h
        subst h
        simp
      · split at h
        · cases h
        · split at h
          · cases h
          · rename_i toks hr
            simp only [Except.ok.injEq] at h
            subst h
            have hb := ih _ _ _ _ hr
            simp only [List.length_cons, MAX_TOKENS] at hb hc ⊢
            omega
    · simp only [Except.ok.injEq] at h
      subst h
      simp

/-- A successful tokenization never holds more than 63 tokens. -/
theorem tokenize_expression_length_le (s : String) (ts : List token_t)
    (h : tokenize_expression s = .ok ts) : ts.length ≤ 63 := by
  have hb := tokenize_aux_length_le (s.toList.length + 1) s.toList true 0 ts h
  simpa [MAX_TOKENS] using hb

/-- Every error code produced by the operator switch is negative. -/
theorem apply_operator_error_neg (op : Char) (a b : ℝ) (e : Int)
    (h : apply_operator op a b = .error e) : e < 0 := by
  unfold apply_operator at h
  repeat' split at h
  all_goals
    first
      | (simp only [Except.error.injEq] at h
         subst h
         decide)
      | simp at h

/-- Every error code produced by one evaluation step is negative. -/
theorem eval_step_error_neg (ctx : eval_context_t) (st : List ℝ) (t : token_t) (e : Int)
    (h : eval_step ctx st t = .error e) : e < 0 := by
  unfold eval_step at h
  repeat' split at h
  all_goals
    first
      | (simp only [Except.error.injEq] at h
         subst h
         decide)
      | (rename_i heq
         simp only [Except.error.injEq] at h
         subst h
         exact apply_operator_error_neg _ _ _ _ heq)
      | simp at h

/-- Every error code produced by the RPN evaluation loop is negative. -/
theorem eval_rpn_loop_error_neg (ctx : eval_context_t) :
    ∀ (rpn : List token_t) (st : List ℝ) (e : Int),
      eval_rpn_loop ctx rpn st = .error e → e < 0 := by
  intro rpn
  induction rpn with
  | nil =>
    intro st e h
    simp [eval_rpn_loop] at h
  | cons t ts ih =>
    intro st e h
    simp only [eval_rpn_loop] at h
    split at h
    · rename_i heq
      simp only [Except.error.injEq] at h
      subst h
      exact eval_step_error_neg _ _ _ _ heq
    · exact ih _ _ h

/-! Claim theorems. -/

/-- C1: A `-` in operand position becomes a UnaryMinus token, including
directly after a binary operator such as `*`, and `"-5+3"` evaluates to
`-2`.  However, the claimed result `-6` for `"3*-2"` does not hold: the
shunting-yard converter pops the higher-precedence `*` off the operator
stack before pushing the unary minus (it treats the incoming unary minus
with the precedence of binary `-`), so the emitted RPN is
`3 * 2 neg` and the evaluator underflows at `*`, returning a Syntax
Error instead of `-6`. -/
theorem c1_unary_minus_parsing (context : eval_context_t) (result : ℝ) :
    evaluate_expression "-5+3" context result = (0, -2) ∧
    tokenize_expression "3*-2" =
      .ok [.number 3, .operator '*', .unary_minus, .number 2] ∧
    evaluate_expression "3*-2" context result = (ERR_SYNTAX_ERROR, result) := by
  refine ⟨?_, by decide, ?_⟩
  · have hp : parse_expression_to_rpn "-5+3" =
        .ok [.number 5, .unary_minus, .number 3, .operator '+'] := by decide
    simp [evaluate_expression, hp, evaluate_rpn, eval_rpn_loop, eval_step,
      apply_operator, MAX_TOKENS]
    norm_num
  · have hp : parse_expression_to_rpn "3*-2" =
        .ok [.number 3, .operator '*', .number 2, .unary_minus] := by decide
    simp [evaluate_expression, hp, evaluate_rpn, eval_rpn_loop, eval_step,
      apply_operator, MAX_TOKENS]

/-- Witness instantiating the C1 theorem at a concrete context. -/
theorem c1_witness : evaluate_expression "-5+3" ctx_rad 0 = (0, -2) :=
  (c1_unary_minus_parsing ctx_rad 0).1

/-- C2 (amended): the tokenizer stops, without reporting any error, as soon
as 63 tokens (the 64-entry buffer minus the end marker) have been scanned,
so an over-capacity expression is silently truncated to its first 63 tokens
rather than rejected with a Stack-Overflow error; the truncated prefix can
evaluate to a success result.  The 65-token expression `long_expr`
(33 ones joined by `+`) tokenizes to exactly 63 tokens and evaluates
successfully to 32, the value of its truncated prefix. -/
theorem c2_truncation :
    (∀ (s : String) (ts : List token_t), tokenize_expression s = .ok ts → ts.length ≤ 63) ∧
    Except.map List.length (tokenize_expression long_expr) = .ok 63 ∧
    evaluate_expression long_expr ctx_rad 0 = (0, 32) := by
  refine ⟨tokenize_expression_length_le, by decide, ?_⟩
  have hp : parse_expression_to_rpn long_expr = .ok (ones_rpn 31) := by decide
  simp [evaluate_expression, hp, evaluate_rpn, eval_ones]
  norm_num

/-- Witness instantiating the C2 theorem's tokenizer bound at a concrete
input. -/
theorem c2_witness : ([token_t.number 1] : List token_t).length ≤ 63 :=
  c2_truncation.1 "1" [token_t.number 1] (by decide)

/-- Counterexample to C2 as stated: the over-capacity expression
`long_expr` (65 tokens > MAX_TOKENS) returns a success code with the value
of its truncated prefix, not a Stack-Overflow error. -/
theorem c2_counterexample :
    evaluate_expression long_expr ctx_rad 0 = (0, 32) ∧ (0 : Int) ≠ ERR_STACK_OVERFLOW := by
  constructor
  · have hp : parse_expression_to_rpn long_expr = .ok (ones_rpn 31) := by decide
    simp [evaluate_expression, hp, evaluate_rpn, eval_ones]
    norm_num
  · decide

/-- C3: the `function_patterns` table does map `"log10"` to the base-10
`FUNC_LOG10`, whose `apply_function` semantics coincide with `FUNC_LOG`
(the intended alias), and `"log(100)"` evaluates to `2`.  But the entry is
unreachable: the first-match scan hits the earlier `"log"` pattern, a
prefix of `"log10"`, so `"log10(100)"` tokenizes as `log`, `10`, `(`,
`100`, `)` and evaluation ends with two values on the stack — a Syntax
Error, not `2`. -/
theorem c3_log10_alias (context : eval_context_t) (result : ℝ) :
    tokenize_expression "log10(100)" =
      .ok [.function .log, .number 10, .left_paren, .number 100, .right_paren] ∧
    evaluate_expression "log10(100)" context result = (ERR_SYNTAX_ERROR, result) ∧
    evaluate_expression "log(100)" context result = (0, 2) ∧
    ∀ (x : ℝ) (d : Bool), apply_function .log10 x d = apply_function .log x d := by
  refine ⟨by decide, ?_, ?_, ?_⟩
  · have hp : parse_expression_to_rpn "log10(100)" =
        .ok [.number 10, .number 100, .function .log] := by decide
    simp [evaluate_expression, hp, evaluate_rpn, eval_rpn_loop, eval_step,
      apply_function, MAX_TOKENS]
  · have hp : parse_expression_to_rpn "log(100)" =
        .ok [.number 100, .function .log] := by decide
    simp [evaluate_expression, hp, evaluate_rpn, eval_rpn_loop, eval_step,
      apply_function, MAX_TOKENS]
    rw [show (100:ℝ) = 10 ^ (2:ℕ) by norm_num, Real.logb_pow,
      Real.logb_self_eq_one (by norm_num)]
    norm_num
  · intro x d
    simp [apply_function]

/-- Witness instantiating the C3 theorem at a concrete context. -/
theorem c3_witness : evaluate_expression "log10(100)" ctx_rad 0 = (ERR_SYNTAX_ERROR, 0) :=
  (c3_log10_alias ctx_rad 0).2.1

/-- C4: `^` is right-associative while `+`, `-`, `*`, `/` are
left-associative, and `"2^3^2"` parses to the RPN `2 3 2 ^ ^` (the equal
precedence `^` on the stack is not popped because the incoming `^` is
right-associative) and evaluates to `512 = 2^(3^2)`. -/
theorem c4_right_associativity (context : eval_context_t) (result : ℝ) :
    evaluate_expression "2^3^2" context result = (0, 512) ∧
    parse_expression_to_rpn "2^3^2" =
      .ok [.number 2, .number 3, .number 2, .operator '^', .operator '^'] ∧
    is_right_associative '^' = true ∧
    is_right_associative '+' = false ∧
    is_right_associative '-' = false ∧
    is_right_associative '*' = false ∧
    is_right_associative '/' = false := by
  refine ⟨?_, by decide, by decide, by decide, by decide, by decide, by decide⟩
  have hp : parse_expression_to_rpn "2^3^2" =
      .ok [.number 2, .number 3, .number 2, .operator '^', .operator '^'] := by decide
  simp [evaluate_expression, hp, evaluate_rpn, eval_rpn_loop, eval_step,
    apply_operator, c_pow, MAX_TOKENS]
  norm_num

/-- Witness instantiating the C4 theorem at a concrete context. -/
theorem c4_witness : evaluate_expression "2^3^2" ctx_rad 0 = (0, 512) :=
  (c4_right_associativity ctx_rad 0).1

/-- C5: any division whose divisor has magnitude below `1e-15` returns the
Division-By-Zero error; in particular `"5/0"` evaluates to
`ERR_DIVISION_BY_ZERO`, which is distinct from the Syntax, Domain and
Overflow error codes. -/
theorem c5_division_by_zero :
    (∀ a b : ℝ, |b| < 1e-15 → apply_operator '/' a b = .error ERR_DIVISION_BY_ZERO) ∧
    (∀ (context : eval_context_t) (result : ℝ),
      evaluate_expression "5/0" context result = (ERR_DIVISION_BY_ZERO, result)) ∧
    ERR_DIVISION_BY_ZERO ≠ ERR_SYNTAX_ERROR ∧
    ERR_DIVISION_BY_ZERO ≠ ERR_DOMAIN_ERROR ∧
    ERR_DIVISION_BY_ZERO ≠ ERR_OVERFLOW := by
  refine ⟨?_, ?_, by decide, by decide, by decide⟩
  · intro a b h
    simp [apply_operator, h]
  · intro context result
    have hp : parse_expression_to_rpn "5/0" =
        .ok [.number 5, .number 0, .operator '/'] := by decide
    simp [evaluate_expression, hp, evaluate_rpn, eval_rpn_loop, eval_step,
      apply_operator, MAX_TOKENS]
    norm_num

/-- Witness discharging the C5 theorem's hypothesis at divisor `0`. -/
theorem c5_witness : apply_operator '/' 5 0 = .error ERR_DIVISION_BY_ZERO :=
  c5_division_by_zero.1 5 0 (by norm_num)

/-- C6: the factorial routine is defined exactly on non-negative integers
up to 170: `"5!"` evaluates to `120`, `"(-1)!"` and `"171!"` evaluate to
the Domain Error (the routine yields NaN — `none` — for negative,
non-integer, or greater-than-170 arguments, which the evaluator's
finiteness check turns into `ERR_DOMAIN_ERROR`), and every natural number
up to 170 gets its exact factorial. -/
theorem c6_factorial_domain :
    (∀ (context : eval_context_t) (result : ℝ),
      evaluate_expression "5!" context result = (0, 120)) ∧
    (∀ (context : eval_context_t) (result : ℝ),
      evaluate_expression "(-1)!" context result = (ERR_DOMAIN_ERROR, result)) ∧
    (∀ (context : eval_context_t) (result : ℝ),
      evaluate_expression "171!" context result = (ERR_DOMAIN_ERROR, result)) ∧
    (∀ x : ℝ, (x < 0 ∨ (⌊x⌋ : ℝ) ≠ x ∨ x > 170) → factorial x = none) ∧
    (∀ n : ℕ, n ≤ 170 → factorial (n : ℝ) = some ((n.factorial : ℕ) : ℝ)) := by
  refine ⟨?_, ?_, ?_, ?_, ?_⟩
  · intro context result
    have hp : parse_expression_to_rpn "5!" =
        .ok [.number 5, .function .factorial] := by decide
    simp [evaluate_expression, hp, evaluate_rpn, eval_rpn_loop, eval_step,
      apply_function, factorial, MAX_TOKENS]
    norm_num [Nat.factorial]
  · intro context result
    have hp : parse_expression_to_rpn "(-1)!" =
        .ok [.number 1, .unary_minus, .function .factorial] := by decide
    simp [evaluate_expression, hp, evaluate_rpn, eval_rpn_loop, eval_step,
      apply_function, factorial, MAX_TOKENS]
  · intro context result
    have hp : parse_expression_to_rpn "171!" =
        .ok [.number 171, .function .factorial] := by decide
    simp [evaluate_expression, hp, evaluate_rpn, eval_rpn_loop, eval_step,
      apply_function, factorial, MAX_TOKENS]
    norm_num
  · intro x hx
    unfold factorial
    rw [if_pos hx]
  · intro n hn
    unfold factorial
    rw [if_neg]
    · simp
    · push_neg
      refine ⟨by positivity, by simp, ?_⟩
      exact_mod_cast hn

/-- Witness discharging the C6 theorem's hypotheses at `-1` and `5`. -/
theorem c6_witness :
    factorial (-1 : ℝ) = none ∧
    factorial ((5 : ℕ) : ℝ) = some ((Nat.factorial 5 : ℕ) : ℝ) :=
  ⟨c6_factorial_domain.2.2.2.1 (-1) (Or.inl (by norm_num)),
   c6_factorial_domain.2.2.2.2 5 (by norm_num)⟩

/-- C7: in degree mode, sin/cos/tan convert the argument from degrees to
radians before applying the host function, asin/acos/atan compute in
radians and convert the result to degrees, the hyperbolic functions ignore
the angle mode, and `"sin(90)"` in a degree-mode context evaluates exactly
to `1`. -/
theorem c7_angle_mode :
    (∀ x : ℝ, apply_function .sin x true = some (Real.sin (x * Real.pi / 180)) ∧
      apply_function .cos x true = some (Real.cos (x * Real.pi / 180)) ∧
      apply_function .tan x true = some (Real.tan (x * Real.pi / 180))) ∧
    (∀ x : ℝ, -1 ≤ x → x ≤ 1 →
      apply_function .asin x true = some (Real.arcsin x * 180 / Real.pi) ∧
      apply_function .acos x true = some (Real.arccos x * 180 / Real.pi)) ∧
    (∀ x : ℝ, apply_function .atan x true = some (Real.arctan x * 180 / Real.pi)) ∧
    (∀ (x : ℝ) (d : Bool), apply_function .sinh x d = some (Real.sinh x) ∧
      apply_function .cosh x d = some (Real.cosh x) ∧
      apply_function .tanh x d = some (Real.tanh x)) ∧
    (∀ (context : eval_context_t) (result : ℝ), context.deg_mode = true →
      evaluate_expression "sin(90)" context result = (0, 1)) := by
  refine ⟨?_, ?_, ?_, ?_, ?_⟩
  · intro x
    refine ⟨?_, ?_, ?_⟩ <;> simp [apply_function]
  · intro x h1 h2
    constructor <;>
      · simp only [apply_function]
        rw [if_neg (by push_neg; constructor <;> linarith)]
        simp
  · intro x
    simp [apply_function]
  · intro x d
    refine ⟨?_, ?_, ?_⟩ <;> simp [apply_function]
  · intro context result hdeg
    have hp : parse_expression_to_rpn "sin(90)" =
        .ok [.number 90, .function .sin] := by decide
    simp [evaluate_expression, hp, evaluate_rpn, eval_rpn_loop, eval_step,
      apply_function, hdeg, MAX_TOKENS]
    rw [show (90:ℝ) * Real.pi / 180 = Real.pi / 2 by ring, Real.sin_pi_div_two]

/-- Witness discharging the C7 theorem's degree-mode hypothesis at a
concrete degree-mode context. -/
theorem c7_witness : evaluate_expression "sin(90)" ctx_deg 0 = (0, 1) :=
  c7_angle_mode.2.2.2.2 ctx_deg 0 rfl

/-- C8: RPN evaluation returns a value exactly when the terminal working
stack holds one value: an operator processed with fewer than two stacked
operands, or a function or unary minus with an empty stack, is a Syntax
Error; after the loop, a return code of `0` is equivalent to the loop
ending with a one-element stack, any other terminal depth yields
`ERR_SYNTAX_ERROR`, and a singleton stack yields its value. -/
theorem c8_stack_discipline :
    (∀ (context : eval_context_t) (op : Char),
      eval_step context [] (.operator op) = .error ERR_SYNTAX_ERROR) ∧
    (∀ (context : eval_context_t) (op : Char) (x : ℝ),
      eval_step context [x] (.operator op) = .error ERR_SYNTAX_ERROR) ∧
    (∀ (context : eval_context_t) (f : function_type_t),
      eval_step context [] (.function f) = .error ERR_SYNTAX_ERROR) ∧
    (∀ context : eval_context_t,
      eval_step context [] .unary_minus = .error ERR_SYNTAX_ERROR) ∧
    (∀ (rpn : List token_t) (context : eval_context_t) (result : ℝ),
      (evaluate_rpn rpn context result).1 = 0 ↔
        ∃ v, eval_rpn_loop context rpn [] = .ok [v]) ∧
    (∀ (rpn : List token_t) (context : eval_context_t) (result : ℝ) (s : List ℝ),
      eval_rpn_loop context rpn [] = .ok s → s.length ≠ 1 →
        evaluate_rpn rpn context result = (ERR_SYNTAX_ERROR, result)) ∧
    (∀ (rpn : List token_t) (context : eval_context_t) (result : ℝ) (v : ℝ),
      eval_rpn_loop context rpn [] = .ok [v] →
        evaluate_rpn rpn context result = (0, v)) := by
  refine ⟨?_, ?_, ?_, ?_, ?_, ?_, ?_⟩
  · intro context op
    simp [eval_step]
  · intro context op x
    simp [eval_step]
  · intro context f
    simp [eval_step]
  · intro context
    simp [eval_step]
  · intro rpn context result
    cases h : eval_rpn_loop context rpn [] with
    | error e =>
      have hneg := eval_rpn_loop_error_neg context rpn [] e h
      simp only [evaluate_rpn, h]
      constructor
      · intro h0
        omega
      · rintro ⟨v, hv⟩
        cases hv
    | ok s =>
      rcases s with _ | ⟨v, _ | ⟨w, t⟩⟩ <;> simp [evaluate_rpn, h, ERR_SYNTAX_ERROR]
  · intro rpn context result s h hlen
    rcases s with _ | ⟨v, _ | ⟨w, t⟩⟩
    · simp [evaluate_rpn, h]
    · simp at hlen
    · simp [evaluate_rpn, h]
  · intro rpn context result v h
    simp [evaluate_rpn, h]

/-- Witness discharging the C8 theorem's hypotheses on the two-value RPN
sequence `1 2`, whose terminal stack depth is two. -/
theorem c8_witness :
    evaluate_rpn [token_t.number 1, token_t.number 2] ctx_rad 0 = (ERR_SYNTAX_ERROR, 0) := by
  have hloop : eval_rpn_loop ctx_rad [token_t.number 1, token_t.number 2] [] =
      .ok [(2 : ℝ), (1 : ℝ)] := by
    simp [eval_rpn_loop, eval_step, MAX_TOKENS]
  exact c8_stack_discipline.2.2.2.2.2.1 _ ctx_rad 0 _ hloop (by simp)

/-- C9: the evaluator never writes to the evaluation context: in the
memory-threaded translation the context component of the caller-visible
state is returned unchanged on every path, success and error alike, and
the threaded translation computes the same return code and result cell as
the plain one. -/
theorem c9_context_preserved (expression : String) (st : eval_context_t × ℝ) :
    ((evaluate_expression_frame expression st).2).1 = st.1 ∧
    (evaluate_expression_frame expression st).1 =
      (evaluate_expression expression st.1 st.2).1 ∧
    ((evaluate_expression_frame expression st).2).2 =
      (evaluate_expression expression st.1 st.2).2 := by
  cases hp : parse_expression_to_rpn expression with
  | error e => simp [evaluate_expression_frame, evaluate_expression, hp]
  | ok rpn =>
    cases hl : eval_rpn_loop st.1 rpn [] with
    | error e =>
      simp [evaluate_expression_frame, evaluate_expression, evaluate_rpn, hp, hl]
    | ok s =>
      rcases s with _ | ⟨v, _ | ⟨w, t⟩⟩ <;>
        simp [evaluate_expression_frame, evaluate_expression, evaluate_rpn, hp, hl]

/-- Witness instantiating the C9 theorem at a concrete input. -/
theorem c9_witness : ((evaluate_expression_frame "-5+3" (ctx_rad, 0)).2).1 = ctx_rad :=
  (c9_context_preserved "-5+3" (ctx_rad, 0)).1

/-- C10: when evaluation returns a negative error code, the result cell
still holds its previous contents; it is written only on the success path
after the terminal stack-depth check. -/
theorem c10_result_cell_on_error (expression : String) (context : eval_context_t)
    (result : ℝ) (h : (evaluate_expression expression context result).1 < 0) :
    (evaluate_expression expression context result).2 = result := by
  cases hp : parse_expression_to_rpn expression with
  | error e => simp [evaluate_expression, hp]
  | ok rpn =>
    cases hl : eval_rpn_loop context rpn [] with
    | error e => simp [evaluate_expression, evaluate_rpn, hp, hl]
    | ok s =>
      rcases s with _ | ⟨v, _ | ⟨w, t⟩⟩
      · simp [evaluate_expression, evaluate_rpn, hp, hl]
      · simp only [evaluate_expression, evaluate_rpn, hp, hl] at h
        simp at h
      · simp [evaluate_expression, evaluate_rpn, hp, hl]

/-- Witness discharging the C10 theorem's hypothesis on a failing parse. -/
theorem c10_witness : (evaluate_expression "+" ctx_rad 7).2 = 7 := by
  have hp : parse_expression_to_rpn "+" = .error ERR_SYNTAX_ERROR := by decide
  exact c10_result_cell_on_error "+" ctx_rad 7
    (by simp [evaluate_expression, hp, ERR_SYNTAX_ERROR])
